import Mathlib

/-!
# Verification of the TimeTabling constraint-model builder and validator

A shallow embedding of the parts of the TimeTabling repository that the
claims under scrutiny talk about: the entity data model (`Timeslot.py`,
`Teacher.py`, `Lesson.py`, `Course.py`, `Solution.py`), helper functions
(`HelperFunctions.py`), the hard-constraint encoder (`HardConstraints.py`),
the soft-constraint encoder (`SoftConstraints.py`, `SoftConstraintWeights.py`)
and the solution validator (`SolutionValidation.py`).

Python objects are embedded as structures; object identity is embedded as
id equality (ids are unique within each entity type); Python lists become
`List`, Python sets become deduplicated lists (dedup by id, keeping the
first occurrence, matching CPython set insertion semantics on objects
without custom equality); fallible code returns `Except`.

The repository's `ORM` module is not part of the source tree (only its
callers are); the constants `TIMESLOTS_PER_DAY`, `WEEKDAYS`, the canonical
timeslot grid and the weekday grouping are modelled from the spec where
needed and are marked as such.
-/

namespace TimeTabling

/-- Weekday constants from `Timeslot.py` (`MO` .. `FR`). -/
inductive Weekday where
  | MO | TU | WE | TH | FR
deriving DecidableEq, Repr

/-- `Timeslot.getWeekdayID`: maps a weekday to its number, 1 for the first
weekday. -/
def getWeekdayID : Weekday → Nat
  | .MO => 1
  | .TU => 2
  | .WE => 3
  | .TH => 4
  | .FR => 5

/-- The `Timeslot` entity (`Timeslot.py`): id, weekday, and the number of
the timeslot within its day (`number`, 1 for the first slot of a day). -/
structure Timeslot where
  id : Nat
  weekday : Weekday
  number : Nat
deriving DecidableEq, Repr

instance : Inhabited Timeslot := ⟨⟨0, .MO, 0⟩⟩

/-- The `Teacher` entity (`Teacher.py`), restricted to the fields the
claims need. The three max fields are Python ints. -/
structure Teacher where
  id : Nat
  study_day_1 : Option Weekday := none
  study_day_2 : Option Weekday := none
  max_lessons_per_day : Int := 5
  max_lectures_per_day : Int := 3
  max_lectures_as_block : Int := 2
  avoid_free_day_gaps : Bool := false
deriving DecidableEq, Repr

/-- `Teacher.hasStudyday`: both studyday fields are not `None`. -/
def Teacher.hasStudyday (t : Teacher) : Bool :=
  t.study_day_1.isSome && t.study_day_2.isSome

/-- The `Course` entity (`Course.py`), restricted to the fields the claims
need; `lessonIds` embeds the `course.lessons` relationship by lesson id. -/
structure Course where
  id : Nat
  is_lecture : Bool := false
  all_in_one_block : Bool := false
  lessonIds : List Nat := []
  semesterGroupIds : List Nat := []
deriving DecidableEq, Repr

instance : Inhabited Course := ⟨⟨0, false, false, [], []⟩⟩

/-- The `Lesson` entity (`Lesson.py`).  Object references are embedded as
ids (`courseId`, `teacherIds`, `sameTimeIds` for `lessons_at_same_time`).
`availableTimeslotsFiltered` is the filtered available-timeslot list the
ORM attaches to each lesson before the variable factory runs; the builder
reads it as data. -/
structure Lesson where
  id : Nat
  timeslot_size : Nat := 1
  whole_semester_group : Bool := true
  courseId : Nat
  teacherIds : List Nat := []
  sameTimeIds : List Nat := []
  availableTimeslotsFiltered : List Timeslot := []
deriving DecidableEq, Repr

instance : Inhabited Lesson := ⟨⟨0, 1, true, 0, [], [], []⟩⟩

/-- The `SemesterGroup` entity (`SemesterGroup.py`), restricted to the
fields the soft-constraint encoder reads. -/
structure SemesterGroup where
  id : Nat
  free_day : Option Weekday := none
  max_lessons_per_day : Int := 5
deriving DecidableEq, Repr

/-- Modelled from the spec: `WEEKDAYS = 5` (the `ORM` module that defines
this constant is not part of the source tree). -/
def WEEKDAYS : Nat := 5

/-- Modelled from the spec: `TIMESLOTS_PER_DAY` (typical value 6; the
scenarios and the forbidden-assignment tables of `HardConstraints.py`
assume 6). The defining `ORM` module is not part of the source tree. -/
def TIMESLOTS_PER_DAY : Nat := 6

/-- The weekday of the day with 0-based index `d`. -/
def weekdayOfIndex : Nat → Weekday
  | 0 => .MO
  | 1 => .TU
  | 2 => .WE
  | 3 => .TH
  | _ => .FR

/-- The list of the five weekdays in order. -/
def weekdayList : List Weekday := [.MO, .TU, .WE, .TH, .FR]

/-- Modelled from the spec: the canonical timeslot grid produced by the
missing `ORM` module. Timeslot ids are contiguous starting at 1, ordered
`(weekday_number - 1) * TIMESLOTS_PER_DAY + number_in_day`. -/
def defaultTimeslots : List Timeslot :=
  (List.range (WEEKDAYS * TIMESLOTS_PER_DAY)).map fun k =>
    ⟨k + 1, weekdayOfIndex (k / TIMESLOTS_PER_DAY), k % TIMESLOTS_PER_DAY + 1⟩

/-- The entity graph handed to the builder and validator.  Embeds the data
the missing `ORM` module serves to its callers: the entity lists (spec:
ids ascending, deterministic order) and the same-time groups
(`ORM.getLessonsAtSameTimeSets`, modelled from the spec: each entry is one
`lessons_at_same_time` group, given by lesson ids). -/
structure Orm where
  timeslots : List Timeslot := defaultTimeslots
  teachers : List Teacher := []
  courses : List Course := []
  lessons : List Lesson := []
  semesterGroups : List SemesterGroup := []
  sameTimeSets : List (List Nat) := []

/-- Look a lesson up by id. -/
def Orm.lessonById (o : Orm) (i : Nat) : Option Lesson :=
  o.lessons.find? fun l => l.id == i

/-- Resolve a lesson's `course` reference. -/
def Orm.courseOf (o : Orm) (l : Lesson) : Course :=
  (o.courses.find? fun c => c.id == l.courseId).getD default

/-- The `teacher.lessons` back-reference: all lessons taught by `t`. -/
def Orm.lessonsOfTeacher (o : Orm) (t : Teacher) : List Lesson :=
  o.lessons.filter fun l => l.teacherIds.contains t.id

/-- Modelled from the spec: `ORM.getTimeslotsPerDay` groups the timeslots
by weekday (five groups of `TIMESLOTS_PER_DAY` slots, canonical order). -/
def Orm.getTimeslotsPerDay (o : Orm) : List (List Timeslot) :=
  weekdayList.map fun d => o.timeslots.filter fun t => t.weekday == d

/-- Deduplicate a list of lessons by id, keeping the first occurrence.
Embeds Python `set(...)` over Lesson objects (identity-keyed). -/
def dedupById (ls : List Lesson) : List Lesson :=
  ls.foldl (fun acc l => if acc.any (fun x => x.id == l.id) then acc else acc ++ [l]) []

/-!
## `HelperFunctions.py`
-/

/-- `intersectAll` from `HelperFunctions.py`: intersects all given
collections. Membership-faithful embedding of the Python set
intersection (Python raises on an empty argument list; callers never pass
one, and we return `[]` there). -/
def intersectAll : List (List Timeslot) → List Timeslot
  | [] => []
  | l :: ls => l.filter fun x => ls.all fun s => decide (x ∈ s)

/-- `getSameTimeLessonSets` from `HelperFunctions.py`.  Builds, for the
given lessons, the list of their same-time groups, each filtered by the
optional lecture / teacher / semester-group predicates; a group is added
only once (when its first member is encountered) and only if the filtered
group is nonempty.  Python sets of lessons are deduplicated lists. -/
def getSameTimeLessonSets (orm : Orm) (lessons : List Lesson)
    (teacher : Option Teacher := none) (semesterGroup : Option SemesterGroup := none)
    (lecture : Bool := false) (filterForLessonsList : Bool := false) : List (List Lesson) :=
  let sameTimeSetList := lessons.foldl (fun sameTimeSetList lesson =>
    if lesson.sameTimeIds.isEmpty then sameTimeSetList
    else if sameTimeSetList.any (fun s => s.any fun x => x.id == lesson.id) then sameTimeSetList
    else
      let newSet := dedupById ((lesson :: lesson.sameTimeIds.filterMap orm.lessonById).filter fun l =>
        (!lecture || (orm.courseOf l).is_lecture) &&
        (match teacher with | none => true | some t => l.teacherIds.contains t.id) &&
        (match semesterGroup with | none => true | some sg => (orm.courseOf l).semesterGroupIds.contains sg.id))
      if newSet.isEmpty then sameTimeSetList else sameTimeSetList ++ [newSet]) []
  if filterForLessonsList then
    (sameTimeSetList.map fun s => s.filter fun x => lessons.any fun y => y.id == x.id).filter
      fun s => decide (s.length > 1)
  else sameTimeSetList

/-- `t_or_f` from `HelperFunctions.py`: parses a boolean CLI argument.
The Python string is embedded as its character list; `upper` is the
per-character upcase; `'TRUE'.startswith(ua)` asks whether `ua` is a
prefix of `'TRUE'`; the `argparse.ArgumentTypeError` branch returns an
error. -/
def t_or_f (arg : List Char) : Except String Bool :=
  let ua := arg.map Char.toUpper
  if ua.isPrefixOf "TRUE".data then .ok true
  else if ua.isPrefixOf "FALSE".data then .ok false
  else .error "Boolean value expected."

/-!
## `Solution.py`
-/

/-- A found timetable solution (`Solution.py`): the map from each timeslot
to the list of `(lesson, room)` pairs placed there, embedded with object
references as ids.  `Solution.__init__` puts every orm timeslot into the
map, so lookups of orm timeslots never fail; a missing key reads as `[]`. -/
structure Solution where
  timeslotMap : List (Timeslot × List (Nat × Nat))

/-- The `(lesson, room)` pairs at a timeslot. -/
def Solution.lessonRoomsAt (s : Solution) (t : Timeslot) : List (Nat × Nat) :=
  ((s.timeslotMap.find? fun p => p.1 == t).map Prod.snd).getD []

/-- `Solution.getLessonsAtTimeslot`, resolving the stored lesson ids. -/
def Solution.getLessonsAtTimeslot (s : Solution) (orm : Orm) (t : Timeslot) : List Lesson :=
  (s.lessonRoomsAt t).filterMap fun p => orm.lessonById p.1

/-- `Solution.getTimeslotsOfLesson`: all map keys whose pair list contains
the lesson, in map order. -/
def Solution.getTimeslotsOfLesson (s : Solution) (lessonId : Nat) : List Timeslot :=
  s.timeslotMap.filterMap fun p => if p.2.any (fun q => q.1 == lessonId) then some p.1 else none

/-!
## `SolutionValidation.py`
-/

/-- The membership test `teacher in <list of Lesson objects>` from
`validateMaxLecturesAsBlockForTeacher` (`SolutionValidation.py` line 428).
Python `in` compares with `==`; the SQLAlchemy-mapped classes define no
custom equality, so a `Teacher` object is never equal to any `Lesson`
object and the test is `False` for every list of lessons. -/
def teacherInLessonList (_teacher : Teacher) (_lessons : List Lesson) : Bool :=
  false

/-- `validateMaxLecturesAsBlockForTeacher` from `SolutionValidation.py`
(lines 421..434): walks all timeslots per teacher keeping a running
`blocksize`, resetting it on the first slot of each day and on slots
where the membership test fails, and flags invalidity when `blocksize`
exceeds `max_lectures_as_block`. -/
def validateMaxLecturesAsBlockForTeacher (sol : Solution) (orm : Orm) : Bool :=
  orm.teachers.foldl (fun isValid teacher =>
    (orm.timeslots.foldl (fun (acc : Bool × Nat) timeslot =>
      let blocksize := if timeslot.number == 1 then 0 else acc.2
      if teacherInLessonList teacher
          ((sol.getLessonsAtTimeslot orm timeslot).filter fun l =>
            (orm.courseOf l).is_lecture && l.teacherIds.contains teacher.id) then
        let blocksize := blocksize + 1
        (if (blocksize : Int) > teacher.max_lectures_as_block then false else acc.1, blocksize)
      else (acc.1, 0)) (isValid, 0)).1) true

/-- Whether the teacher gives a lecture at the timeslot in the solution:
the nonemptiness of the very lesson list the validator filters at line
428 (the check the membership test was evidently meant to perform). -/
def teacherLectureAtSlot (sol : Solution) (orm : Orm) (teacherId : Nat) (t : Timeslot) : Bool :=
  (sol.getLessonsAtTimeslot orm t).any fun l =>
    (orm.courseOf l).is_lecture && l.teacherIds.contains teacherId

/-- The per-day lecture-timeslot count computed by
`validateMaxLecturesPerDayPerTeacher` (`SolutionValidation.py` lines
309..317): sizes of the teacher's non-same-time lectures of the day plus,
per same-time group, the largest member size. -/
def lectureTimeCountOfDay (sol : Solution) (orm : Orm) (teacher : Teacher)
    (day : List Timeslot) : Nat :=
  let lecturesWithTeacher := dedupById
    ((day.flatMap fun t => sol.getLessonsAtTimeslot orm t).filter fun l =>
      (orm.courseOf l).is_lecture && l.teacherIds.contains teacher.id)
  let lessonSetList := getSameTimeLessonSets orm lecturesWithTeacher (some teacher) none true
  ((lecturesWithTeacher.filter fun l => l.sameTimeIds.isEmpty).foldl
      (fun s l => s + l.timeslot_size) 0)
    + lessonSetList.foldl (fun s st => s + st.foldl (fun m l => max m l.timeslot_size) 0) 0

/-- `validateMaxLecturesPerDayPerTeacher` from `SolutionValidation.py`
(lines 305..320).  Note that line 319 compares the lecture count with
`teacher.max_lessons_per_day`, exactly as the source does. -/
def validateMaxLecturesPerDayPerTeacher (sol : Solution) (orm : Orm) : Bool :=
  orm.teachers.all fun teacher => orm.getTimeslotsPerDay.all fun day =>
    decide ((lectureTimeCountOfDay sol orm teacher day : Int) ≤ teacher.max_lessons_per_day)

/-- `validateOnlyOneNotAllInOneBlockLessonPerDay` from
`SolutionValidation.py` (lines 386..398), embedded in `Except`: when
`courseValid` is false the function evaluates its failure-log format
arguments, which reference the undefined names `sameDayCorrection` and
`lessonsWithWholeSG`, so Python raises `NameError` there instead of
recording the failure. -/
def validateOnlyOneNotAllInOneBlockLessonPerDay (sol : Solution) (orm : Orm) :
    Except String Bool :=
  (orm.courses.filter fun c => !c.all_in_one_block).foldlM (fun isValid course => do
    let relevantLessons := (course.lessonIds.filterMap orm.lessonById).filter fun x =>
      x.whole_semester_group && x.sameTimeIds.isEmpty
    let firstWeekdays ← relevantLessons.mapM fun lesson =>
      match (sol.getTimeslotsOfLesson lesson.id).head? with
      | some t => Except.ok t.weekday
      | none => Except.error "IndexError: list index out of range"
    let weekdaySet := firstWeekdays.foldl
      (fun acc w => if acc.contains w then acc else acc ++ [w]) []
    if weekdaySet.length == relevantLessons.length then pure isValid
    else Except.error "NameError: name sameDayCorrection is not defined") true

/-- The distinct first weekdays of a course's relevant lessons, and those
lessons, as the validator computes them (for stating the violation). -/
def relevantLessonsOfCourse (orm : Orm) (course : Course) : List Lesson :=
  (course.lessonIds.filterMap orm.lessonById).filter fun x =>
    x.whole_semester_group && x.sameTimeIds.isEmpty

/-!
## `HardConstraints.py`: lecture block cap (R11)
-/

/-- Forbidden-assignment tables from `addMaxLecturesAsBlockTeacherConstraints`. -/
def max5_maxblock_4 : List (List Nat) := [[1,1,1,1,1,0], [0,1,1,1,1,1]]

def max4_maxblock_3 : List (List Nat) := [[1,1,1,1,0,0], [0,1,1,1,1,0], [0,0,1,1,1,1]]

def max5_maxblock_3 : List (List Nat) :=
  [[1,1,1,1,0,1], [1,0,1,1,1,1]] ++ max4_maxblock_3 ++ max5_maxblock_4

def max3_maxblock_2 : List (List Nat) :=
  [[1,1,1,0,0,0], [0,1,1,1,0,0], [0,0,1,1,1,0], [0,0,0,1,1,1]]

def max4_maxblock_2 : List (List Nat) :=
  [[1,1,1,0,1,0], [1,1,1,0,0,1], [0,1,1,1,0,1], [1,0,1,1,1,0], [0,1,0,1,1,1],
   [1,0,0,1,1,1], [1,0,0,1,1,1]] ++ max3_maxblock_2 ++ max4_maxblock_3

def max2_maxblock_1 : List (List Nat) :=
  [[1,1,0,0,0,0], [0,1,1,0,0,0], [0,0,1,1,0,0], [0,0,0,1,1,0], [0,0,0,0,1,1]]

def max3_maxblock_1 : List (List Nat) :=
  [[1,1,0,1,0,0], [1,1,0,0,1,0], [1,1,0,0,0,1], [0,1,1,0,1,0], [0,1,1,0,0,1],
   [1,0,1,1,0,0], [0,0,1,1,0,1], [0,1,0,1,1,0], [1,0,0,1,1,0], [0,0,1,0,1,1],
   [0,1,0,0,1,1], [1,0,0,0,1,1]] ++ max2_maxblock_1 ++ max3_maxblock_2

/-- The `if max_lectures_per_day == 5` statement of
`addMaxLecturesAsBlockTeacherConstraints` (`HardConstraints.py` lines
1045..1051): acting on the current per-day cap `p` and the clamped block
cap `b`, yields the new per-day cap and selected forbidden table. -/
def maxLecturesBlockStage5 (p b : Int) : Int × List (List Nat) :=
  if p == 5 then
    (if b == 4 then (p, max5_maxblock_4)
     else if b == 3 then (p, max5_maxblock_3)
     else if b < 3 then ((4 : Int), [])
     else (p, []))
  else (p, [])

/-- The `if max_lectures_per_day == 4` statement (lines 1053..1059). -/
def maxLecturesBlockStage4 (pf : Int × List (List Nat)) (b : Int) : Int × List (List Nat) :=
  if pf.1 == 4 then
    (if b == 3 then (pf.1, max4_maxblock_3)
     else if b == 2 then (pf.1, max4_maxblock_2)
     else if b < 2 then ((3 : Int), pf.2)
     else pf)
  else pf

/-- The `if max_lectures_per_day == 3` statement (lines 1061..1065). -/
def maxLecturesBlockStage3 (pf : Int × List (List Nat)) (b : Int) : Int × List (List Nat) :=
  if pf.1 == 3 then
    (if b == 2 then (pf.1, max3_maxblock_2)
     else if b == 1 then (pf.1, max3_maxblock_1)
     else pf)
  else pf

/-- The `if max_lectures_per_day == 2` statement (lines 1067..1069). -/
def maxLecturesBlockStage2 (pf : Int × List (List Nat)) (b : Int) : Int × List (List Nat) :=
  if pf.1 == 2 && b == 1 then (pf.1, max2_maxblock_1) else pf

/-- The per-teacher body of `addMaxLecturesAsBlockTeacherConstraints`
(`HardConstraints.py` lines 1028..1069): clamps the block cap (lines
1035..1036), applies the reduction step for `max_lectures_per_day == 6`
(lines 1041..1043) and then the four `if` statements above in source
order.  Returns the new `max_lectures_per_day`, the new
`max_lectures_as_block` and the selected `forbidden_assignments`. -/
def maxLecturesBlockPhase (p0 b0 : Int) : Int × Int × List (List Nat) :=
  let b := if b0 > p0 then p0 else b0
  let p := if p0 == 6 && b != 6 then 5 else p0
  let pf := maxLecturesBlockStage2
    (maxLecturesBlockStage3 (maxLecturesBlockStage4 (maxLecturesBlockStage5 p b) b) b) b
  (pf.1, b, pf.2)

/-- The in-place field rewriting `addMaxLecturesAsBlockTeacherConstraints`
performs on each teacher object. -/
def reduceTeacher (t : Teacher) : Teacher :=
  let r := maxLecturesBlockPhase t.max_lectures_per_day t.max_lectures_as_block
  { t with max_lectures_per_day := r.1, max_lectures_as_block := r.2.1 }

/-- The forbidden-assignment table selected for a teacher. -/
def forbiddenAssignmentsFor (t : Teacher) : List (List Nat) :=
  (maxLecturesBlockPhase t.max_lectures_per_day t.max_lectures_as_block).2.2

/-- One posted `AddForbiddenAssignments` constraint: the day's timeslots
(standing for the teacher's lecture-at-slot booleans of that day, in day
order) and the forbidden tuples. -/
structure ForbiddenAssignmentsConstraint where
  teacherId : Nat
  daySlots : List Timeslot
  forbidden : List (List Nat)
deriving DecidableEq, Repr

/-- The constraints posted for one teacher (`HardConstraints.py` lines
1071..1075): when the selected forbidden table is nonempty, one
`AddForbiddenAssignments` per weekday, over that day's lecture booleans
in day order. -/
def blockConstraintsForTeacher (orm : Orm) (teacher : Teacher) :
    List ForbiddenAssignmentsConstraint :=
  let f := forbiddenAssignmentsFor teacher
  if f.isEmpty then []
  else orm.getTimeslotsPerDay.map fun day => ⟨teacher.id, day, f⟩

/-- `addMaxLecturesAsBlockTeacherConstraints` (`HardConstraints.py` lines
985..1078): rewrites every teacher in place and, per teacher with a
nonempty forbidden table, posts one forbidden-assignments constraint per
weekday over that day's lecture booleans.  Returns the updated entity
graph and the posted constraints. -/
def addMaxLecturesAsBlockTeacherConstraints (orm : Orm) :
    Orm × List ForbiddenAssignmentsConstraint :=
  ({ orm with teachers := orm.teachers.map reduceTeacher },
   orm.teachers.flatMap fun teacher => blockConstraintsForTeacher orm teacher)

/-- Python `max(lessons, key=lambda l: l.timeslot_size)`: the first lesson
of maximal size. -/
def maxBySize : List Lesson → Lesson
  | [] => default
  | l :: ls => ls.foldl (fun m x => if x.timeslot_size > m.timeslot_size then x else m) l

/-- The counted lesson set of `addMaxLecturesPerDayTeacherConstraints`
(`HardConstraints.py` lines 1102..1118): the teacher's non-same-time
lectures plus, per same-time group, the longest of its lectures with the
teacher. -/
def lecturesForTeacher (orm : Orm) (teacher : Teacher) : List Lesson :=
  let nonSameTimeLectures := (orm.lessonsOfTeacher teacher).filter fun x =>
    (orm.courseOf x).is_lecture && x.sameTimeIds.isEmpty
  let fromSameTime := orm.sameTimeSets.foldl (fun acc sameTimeSet =>
    let lectures := (sameTimeSet.filterMap orm.lessonById).filter fun l =>
      l.teacherIds.contains teacher.id && (orm.courseOf l).is_lecture
    if lectures.isEmpty then acc else acc ++ [maxBySize lectures]) []
  dedupById (nonSameTimeLectures ++ fromSameTime)

/-- One posted per-day lecture cap of
`addMaxLecturesPerDayTeacherConstraints` (`HardConstraints.py` lines
1129..1135): the counted lessons whose day-weighted sizes are summed and
the bound `teacher.max_lectures_per_day` read at posting time. -/
structure PerDayLectureCap where
  teacherId : Nat
  dayIndex : Nat
  countedLessons : List Lesson
  bound : Int
deriving Repr

/-- `addMaxLecturesPerDayTeacherConstraints`: one cap per teacher and
weekday, with the bound read from the teacher object as it is when the
function runs. -/
def addMaxLecturesPerDayTeacherConstraints (orm : Orm) : List PerDayLectureCap :=
  orm.teachers.flatMap fun teacher =>
    (List.range WEEKDAYS).map fun dayIndex =>
      ⟨teacher.id, dayIndex, lecturesForTeacher orm teacher, teacher.max_lectures_per_day⟩

/-- The builder pipeline for the lecture rules: the block phase rewrites
the teachers, then the per-day caps are posted over the rewritten graph
(`TimeTabling.py` lines 185..186). -/
def lecturePipeline (orm : Orm) : List ForbiddenAssignmentsConstraint × List PerDayLectureCap :=
  let r := addMaxLecturesAsBlockTeacherConstraints orm
  (r.2, addMaxLecturesPerDayTeacherConstraints r.1)

/-- The parameter pre-reduction as the claim (spec R11) words it: first
clamp `max_lectures_as_block` to `max_lectures_per_day`, then reduce
`max_lectures_per_day` stepwise, 6 to 5 when the block cap is not 6, 5 to
4 when it is below 3, 4 to 3 when it is below 2. -/
def claimedReduceParams (p0 b0 : Int) : Int × Int :=
  let b := if b0 > p0 then p0 else b0
  let p := if p0 = 6 ∧ b ≠ 6 then 5 else p0
  let p := if p = 5 ∧ b < 3 then 4 else p
  let p := if p = 4 ∧ b < 2 then 3 else p
  (p, b)

/-- Number of occupied slots in a day occupancy pattern. -/
def countOnes (v : List Bool) : Nat := v.countP fun b => b

/-- Whether a day occupancy pattern contains four consecutive occupied
slots. -/
def hasRunOfFour (v : List Bool) : Bool :=
  (List.range v.length).any fun i =>
    decide (i + 4 ≤ v.length) && ((List.range 4).all fun j => v.getD (i + j) false)

/-- A day occupancy pattern as the 0/1 tuple `AddForbiddenAssignments`
compares against. -/
def boolsToBits (v : List Bool) : List Nat := v.map fun b => if b then 1 else 0

/-!
## `HardConstraints.py`: variable factory
-/

/-- `maxLessonSize` over a same-time group
(`createLessonTimeAndRoomVariables`, line 99). -/
def groupMaxSize (group : List Lesson) : Nat :=
  group.foldl (fun m l => max m l.timeslot_size) 0

/-- The domain (timeslot ids) of the i-th shared start-slot variable of a
same-time group, for each `i` below the group's maximal size
(`createLessonTimeAndRoomVariables`, lines 110..131): the intersection of
the filtered available timeslots of the members of size above `i`,
restricted to slots whose number in the day keeps the block within the
day. -/
def timeVarDomains (group : List Lesson) : List (List Nat) :=
  (List.range (groupMaxSize group)).map fun i =>
    let lessonsWithCurrentSize := group.filter fun l => decide (i < l.timeslot_size)
    let availableTimeslots :=
      intersectAll (lessonsWithCurrentSize.map fun l => l.availableTimeslotsFiltered)
    let lastPossibleTimeslotNumber := TIMESLOTS_PER_DAY - groupMaxSize group + i + 1
    (availableTimeslots.filter fun t => decide (t.number ≤ lastPossibleTimeslotNumber)).map
      fun t => t.id

/-- The indices of the shared start-slot variables appended to a member
lesson: variable `i` is appended exactly to the members of size above `i`
(line 134..135). -/
def timeVarsOfLesson (group : List Lesson) (l : Lesson) : List Nat :=
  (List.range (groupMaxSize group)).filter fun i => decide (i < l.timeslot_size)

/-- The consecutiveness constraints posted while creating the shared
start-slot variables (lines 139..143): for every variable after the
first, `timeVar == lastTimeVar + 1`, i.e. the index pairs `(i, i+1)` for
every `i` with `i + 1` below the group's maximal size. -/
def consecutiveTimeVarConstraints (group : List Lesson) : List (Nat × Nat) :=
  (List.range (groupMaxSize group - 1)).map fun i => (i, i + 1)

/-- Helper-variable allocation of `createLessonTimeHelperVariables`
(`HardConstraints.py` lines 183..229), abstracted to one bundle tag per
allocation: lessons mapped to the same tag share their `weekdayVar`,
`hourNumberVar` and `weekdayBoolVars` by identity.  A lesson that already
has a bundle is skipped; an allocating lesson assigns its fresh bundle to
itself and to every lesson in its `lessons_at_same_time` list. -/
def lookupVar (m : List (Nat × Nat)) (k : Nat) : Option Nat :=
  (m.find? fun p => p.1 == k).map Prod.snd

/-- Assign (overwriting) the bundle `v` to every key. -/
def insertAllVars (m : List (Nat × Nat)) (keys : List Nat) (v : Nat) : List (Nat × Nat) :=
  keys.foldl (fun acc k => (k, v) :: acc) m

/-- One step of the helper-variable allocation fold. -/
def helperVarStep (acc : List (Nat × Nat) × Nat) (l : Lesson) : List (Nat × Nat) × Nat :=
  match lookupVar acc.1 l.id with
  | some _ => acc
  | none => (insertAllVars ((l.id, acc.2) :: acc.1) l.sameTimeIds acc.2, acc.2 + 1)

/-- The bundle map produced by `createLessonTimeHelperVariables` over the
lesson list. -/
def assignHelperVars (lessons : List Lesson) : List (Nat × Nat) :=
  (lessons.foldl helperVarStep ([], 0)).1

/-- The constraints `createLessonTimeHelperVariables` posts for one
helper bundle, as a predicate on an assignment: `w` and `h` range over
the variable domains, `t0` is the lesson's first start slot, `d` lists
the values of the five `weekdayBoolVars` and `days` is the weekday
grouping of the timeslots.  A true weekday boolean enforces the bounded
linear constraint putting `t0` into that day's id range, and the booleans
sum to one. -/
def lessonTimeHelperConstraintsHold (days : List (List Timeslot)) (w h t0 : Int)
    (d : List Bool) : Prop :=
  (1 ≤ w ∧ w ≤ (WEEKDAYS : Int)) ∧ (1 ≤ h ∧ h ≤ (TIMESLOTS_PER_DAY : Int)) ∧
  t0 = (w - 1) * (TIMESLOTS_PER_DAY : Int) + h ∧
  d.length = days.length ∧
  (∀ i, i < days.length → d.getD i false = true →
    (((days.getD i []).headD default).id : Int) ≤ t0 ∧
      t0 ≤ (((days.getD i []).getLastD default).id : Int)) ∧
  d.countP (fun b => b) = 1

/-- The canonical weekday grouping of the default grid. -/
def defaultDays : List (List Timeslot) := Orm.getTimeslotsPerDay {}

/-!
## `HardConstraints.py`: teacher study day (R4)
-/

/-- Variable allocation of `addTeacherStudyDayConstraints`
(`HardConstraints.py` lines 624..630): `studyDay1BoolVar` is fresh and
`studyDay2BoolVar` is a second fresh variable exactly when the two
study-day ids differ, otherwise it is the same variable. -/
def studyDayVarIds (d1 d2 : Weekday) (base : Nat) : Nat × Nat :=
  (base, if getWeekdayID d1 != getWeekdayID d2 then base + 1 else base)

/-- The constraints `addTeacherStudyDayConstraints` posts for one teacher
with study days `d1`, `d2` and lesson weekday values `ws`, as a predicate
on a boolean valuation `v` of the variable ids: under `S1` every lesson
weekday differs from `id(d1)`; when the ids differ, under `S2` every
lesson weekday differs from `id(d2)`; and `S1 OR S2` holds. -/
def teacherStudyDayConstraintsHold (d1 d2 : Weekday) (ws : List Int) (base : Nat)
    (v : Nat → Bool) : Prop :=
  (v (studyDayVarIds d1 d2 base).1 = true → ∀ w ∈ ws, (getWeekdayID d1 : Int) ≠ w) ∧
  (getWeekdayID d1 ≠ getWeekdayID d2 →
    v (studyDayVarIds d1 d2 base).2 = true → ∀ w ∈ ws, (getWeekdayID d2 : Int) ≠ w) ∧
  (v (studyDayVarIds d1 d2 base).1 = true ∨ v (studyDayVarIds d1 d2 base).2 = true)

/-!
## `SoftConstraints.py` and `SoftConstraintWeights.py`
-/

def PREFER_FIRST_STUDYDAY_PENALTY : Int := 30
def SIXTH_HOUR_PENALTY : Int := 5
def FIFTH_HOUR_PENALTY : Int := 3
def FIRST_HOUR_PENALTY : Int := 2
def ONE_TIMESLOT_GAP_PENALTY : Int := 3
def TWO_TIMESLOT_GAP_PENALTY : Int := 4
def THREE_TIMESLOT_GAP_PENALTY : Int := 4
def FOUR_TIMESLOT_GAP_PENALTY : Int := 3
def ONE_DAY_GAP_PENALTY : Int := 18
def TWO_DAY_GAP_PENALTY : Int := 30
def THREE_DAY_GAP_PENALTY : Int := 18
def LESSONS_ON_FREE_DAY_PENALTY : Int := 9

/-- The counter variables weighted in the objective, named after the
entity fields the source attaches them to. -/
inductive ObjVar where
  | studyDay1Not (teacherId : Nat)
  | hourCount (n : Nat)
  | oneGapCount (sgId : Nat)
  | twoGapCount (sgId : Nat)
  | threeGapCount (sgId : Nat)
  | fourGapCount (sgId : Nat)
  | oneDayGapCount (teacherId : Nat)
  | twoDayGapCount (teacherId : Nat)
  | threeDayGapCount (teacherId : Nat)
  | lessonsOnFreeDay (sgId : Nat)
deriving DecidableEq, Repr

/-- `addCountLessonsAtNthHour` (`SoftConstraints.py` lines 70..114): the
occupancy booleans summed into the hour counter, as
`(lesson id, timeslot id)` pairs — one per lesson and per timeslot whose
number in the day equals `timeslotNumber`, in source loop order.  The
posted constraint sets the counter equal to the sum of these booleans. -/
def addCountLessonsAtNthHour (orm : Orm) (timeslotNumber : Nat) : List (Nat × Nat) :=
  orm.lessons.flatMap fun lesson =>
    (orm.timeslots.filter fun t => t.number == timeslotNumber).map fun t => (lesson.id, t.id)

/-- `createObjectiveFunctionSummands` (`SoftConstraints.py` lines
424..495): the weighted summand list of the objective, in source append
order. -/
def createObjectiveFunctionSummands (orm : Orm) : List (ObjVar × Int) :=
  ((orm.teachers.filter fun t => t.hasStudyday && !(orm.lessonsOfTeacher t).isEmpty).map
      fun t => (ObjVar.studyDay1Not t.id, PREFER_FIRST_STUDYDAY_PENALTY))
  ++ [(ObjVar.hourCount 6, SIXTH_HOUR_PENALTY), (ObjVar.hourCount 5, FIFTH_HOUR_PENALTY),
      (ObjVar.hourCount 1, FIRST_HOUR_PENALTY)]
  ++ (orm.semesterGroups.flatMap fun sg =>
      [(ObjVar.oneGapCount sg.id, ONE_TIMESLOT_GAP_PENALTY),
       (ObjVar.twoGapCount sg.id, TWO_TIMESLOT_GAP_PENALTY),
       (ObjVar.threeGapCount sg.id, THREE_TIMESLOT_GAP_PENALTY),
       (ObjVar.fourGapCount sg.id, FOUR_TIMESLOT_GAP_PENALTY)])
  ++ ((orm.teachers.filter fun t =>
        t.avoid_free_day_gaps && decide (1 < (orm.lessonsOfTeacher t).length)).flatMap fun t =>
      [(ObjVar.oneDayGapCount t.id, ONE_DAY_GAP_PENALTY),
       (ObjVar.twoDayGapCount t.id, TWO_DAY_GAP_PENALTY),
       (ObjVar.threeDayGapCount t.id, THREE_DAY_GAP_PENALTY)])
  ++ ((orm.semesterGroups.filter fun sg => sg.free_day.isSome).map
      fun sg => (ObjVar.lessonsOnFreeDay sg.id, LESSONS_ON_FREE_DAY_PENALTY))

/-!
## Concrete instances used as evidence
-/

/-- A solution over the default grid placing, at the timeslot with the
given id, the given lessons (each in room 1). -/
def mkSolution (placements : List (Nat × List Nat)) : Solution :=
  ⟨defaultTimeslots.map fun t =>
    (t, (((placements.find? fun p => p.1 == t.id).map Prod.snd).getD []).map fun l => (l, 1))⟩

/-- Teacher with a lecture-block cap of 3 (and per-day caps 4 and 5). -/
def ex1Teacher : Teacher :=
  { id := 1, max_lessons_per_day := 5, max_lectures_per_day := 4, max_lectures_as_block := 3 }

/-- A lecture course with four one-slot lessons. -/
def ex1Course : Course := { id := 1, is_lecture := true, lessonIds := [1, 2, 3, 4] }

def ex1Lesson (i : Nat) : Lesson := { id := i, timeslot_size := 1, courseId := 1, teacherIds := [1] }

def ex1Orm : Orm :=
  { teachers := [ex1Teacher], courses := [ex1Course],
    lessons := [ex1Lesson 1, ex1Lesson 2, ex1Lesson 3, ex1Lesson 4] }

/-- The four lecture lessons fill the first four Monday slots: a lecture
run of length four for the teacher. -/
def ex1Sol : Solution := mkSolution [(1, [1]), (2, [2]), (3, [3]), (4, [4])]

/-- Teacher allowed one lecture timeslot per day but five lesson
timeslots per day. -/
def ex2Teacher : Teacher :=
  { id := 1, max_lessons_per_day := 5, max_lectures_per_day := 1, max_lectures_as_block := 6 }

def ex2Course : Course := { id := 1, is_lecture := true, lessonIds := [1] }

def ex2Lesson : Lesson := { id := 1, timeslot_size := 2, courseId := 1, teacherIds := [1] }

def ex2Orm : Orm :=
  { teachers := [ex2Teacher], courses := [ex2Course], lessons := [ex2Lesson] }

/-- The two-slot lecture occupies the first two Monday slots: two counted
lecture timeslots on one day. -/
def ex2Sol : Solution := mkSolution [(1, [1]), (2, [1])]

/-- A course that is not all-in-one-block, with two relevant lessons. -/
def ex3Course : Course := { id := 1, all_in_one_block := false, lessonIds := [1, 2] }

def ex3Lesson (i : Nat) : Lesson := { id := i, timeslot_size := 1, courseId := 1 }

def ex3Orm : Orm := { courses := [ex3Course], lessons := [ex3Lesson 1, ex3Lesson 2] }

/-- Both relevant lessons are placed on Monday: one distinct weekday for
two lessons, so the rule is violated. -/
def ex3Sol : Solution := mkSolution [(1, [1]), (2, [2])]

/-- A teacher whose lecture parameters are already the reduced pair
`(max_lectures_per_day, max_lectures_as_block) = (4, 3)`. -/
def ex5Teacher : Teacher :=
  { id := 2, max_lectures_per_day := 4, max_lectures_as_block := 3 }

/-- A two-slot lesson with four admissible Monday slots. -/
def ex6LessonA : Lesson :=
  { id := 10, timeslot_size := 2, courseId := 1,
    availableTimeslotsFiltered := [⟨1, .MO, 1⟩, ⟨2, .MO, 2⟩, ⟨3, .MO, 3⟩, ⟨4, .MO, 4⟩] }

/-- A three-slot lesson with four admissible Monday slots. -/
def ex6LessonB : Lesson :=
  { id := 11, timeslot_size := 3, courseId := 1,
    availableTimeslotsFiltered := [⟨2, .MO, 2⟩, ⟨3, .MO, 3⟩, ⟨4, .MO, 4⟩, ⟨5, .MO, 5⟩] }

/-- A same-time group of the two lessons above (maximal size 3). -/
def ex6Group : List Lesson := [ex6LessonA, ex6LessonB]

/-- Two lessons in one same-time group (mutual `lessons_at_same_time`). -/
def ex7LessonA : Lesson := { id := 1, courseId := 1, sameTimeIds := [2] }

def ex7LessonB : Lesson := { id := 2, courseId := 1, sameTimeIds := [1] }

/-!
## Theorems
-/

/-- C10: `t_or_f` returns `True` for every argument whose upper-cased
form is a prefix of `TRUE` — including the empty string, which yields
`True` — returns `False` for every non-empty argument whose upper-cased
form is a prefix of `FALSE`, and raises `argparse.ArgumentTypeError` for
every other input. -/
theorem t_or_f_parses_booleans :
    (∀ arg : List Char,
      ((arg.map Char.toUpper) <+: "TRUE".data → t_or_f arg = .ok true) ∧
      (arg ≠ [] → (arg.map Char.toUpper) <+: "FALSE".data → t_or_f arg = .ok false) ∧
      (¬ (arg.map Char.toUpper) <+: "TRUE".data →
        ¬ (arg.map Char.toUpper) <+: "FALSE".data →
          t_or_f arg = .error "Boolean value expected.")) ∧
    t_or_f [] = .ok true := by
  have hdata : "TRUE".data = 'T' :: "RUE".data := rfl
  have hdataF : "FALSE".data = 'F' :: "ALSE".data := rfl
  constructor
  · intro arg
    refine ⟨fun h => ?_, fun hne h => ?_, fun h1 h2 => ?_⟩
    · simp [t_or_f, List.isPrefixOf_iff_prefix.mpr h]
    · have hnt : ¬ (arg.map Char.toUpper) <+: "TRUE".data := by
        intro ht
        match arg, hne with
        | c :: cs, _ =>
          rw [List.map_cons, hdata] at ht
          rw [List.map_cons, hdataF] at h
          have e1 := (List.cons_prefix_cons.mp ht).1
          have e2 := (List.cons_prefix_cons.mp h).1
          rw [e1] at e2
          exact absurd e2 (by decide)
      have hbt : (arg.map Char.toUpper).isPrefixOf "TRUE".data = false := by
        rw [← Bool.not_eq_true, List.isPrefixOf_iff_prefix]; exact hnt
      simp [t_or_f, hbt, List.isPrefixOf_iff_prefix.mpr h]
    · have hbt : (arg.map Char.toUpper).isPrefixOf "TRUE".data = false := by
        rw [← Bool.not_eq_true, List.isPrefixOf_iff_prefix]; exact h1
      have hbf : (arg.map Char.toUpper).isPrefixOf "FALSE".data = false := by
        rw [← Bool.not_eq_true, List.isPrefixOf_iff_prefix]; exact h2
      simp [t_or_f, hbt, hbf]
  · rfl

/-- Witness for C10 at the concrete inputs `"tr"`, `"f"` and `"x"`. -/
theorem t_or_f_parses_booleans_witness :
    t_or_f "tr".data = .ok true ∧ t_or_f "f".data = .ok false ∧
    t_or_f "x".data = .error "Boolean value expected." :=
  ⟨(t_or_f_parses_booleans.1 "tr".data).1 (by decide),
   (t_or_f_parses_booleans.1 "f".data).2.1 (by decide) (by decide),
   (t_or_f_parses_booleans.1 "x".data).2.2 (by decide) (by decide)⟩

/-- C1: code-bug evidence.  In `ex1Sol` the teacher (block cap 3) holds
lectures at the four consecutive Monday slots with ids 1..4 — a run of
length four — yet `validateMaxLecturesAsBlockForTeacher` returns `True`:
its membership test `teacher in <list of lessons>` is always false in
Python, so the running blocksize never grows and no solution is ever
rejected. -/
theorem validateMaxLecturesAsBlock_misses_block_violation :
    validateMaxLecturesAsBlockForTeacher ex1Sol ex1Orm = true ∧
    ex1Teacher.max_lectures_as_block = 3 ∧
    (defaultTimeslots.filter fun t => decide (1 ≤ t.id ∧ t.id ≤ 4)).length = 4 ∧
    ((defaultTimeslots.filter fun t => decide (1 ≤ t.id ∧ t.id ≤ 4)).all fun t =>
      teacherLectureAtSlot ex1Sol ex1Orm 1 t && (t.weekday == Weekday.MO) &&
        (t.number == t.id)) = true := by
  refine ⟨by decide, rfl, by decide, by decide⟩

/-- C2: code-bug evidence.  In `ex2Sol` the teacher (one lecture timeslot
allowed per day) has two counted lecture timeslots on Monday, yet
`validateMaxLecturesPerDayPerTeacher` returns `True`: the source compares
the lecture count against `max_lessons_per_day` (5 here) instead of
`max_lectures_per_day`. -/
theorem validateMaxLecturesPerDay_compares_wrong_field :
    validateMaxLecturesPerDayPerTeacher ex2Sol ex2Orm = true ∧
    lectureTimeCountOfDay ex2Sol ex2Orm ex2Teacher (ex2Orm.getTimeslotsPerDay.getD 0 []) = 2 ∧
    ex2Teacher.max_lectures_per_day = 1 ∧ ex2Teacher.max_lessons_per_day = 5 := by
  refine ⟨by decide, by decide, rfl, rfl⟩

/-- C3: code-bug evidence.  In `ex3Sol` the two relevant lessons of the
non-block course both fall on Monday, so the rule is violated; instead of
logging and returning `False`, the validator aborts: its failure-log
arguments reference the undefined names `sameDayCorrection` and
`lessonsWithWholeSG`, raising `NameError`, which propagates out of
`validateSolution`. -/
theorem validateOnlyOneNotAllInOneBlock_aborts_on_violation :
    validateOnlyOneNotAllInOneBlockLessonPerDay ex3Sol ex3Orm =
      Except.error "NameError: name sameDayCorrection is not defined" ∧
    (relevantLessonsOfCourse ex3Orm ex3Course).length = 2 ∧
    ((relevantLessonsOfCourse ex3Orm ex3Course).map fun l =>
      ((ex3Sol.getTimeslotsOfLesson l.id).headD default).weekday) = [.MO, .MO] := by
  refine ⟨by rfl, by decide, by decide⟩

/-- The per-day cap after the `p == 5` stage. -/
theorem maxLecturesBlockStage5_fst (p b : Int) :
    (maxLecturesBlockStage5 p b).1 = if p = 5 ∧ b < 3 then 4 else p := by
  unfold maxLecturesBlockStage5
  split_ifs <;> simp_all

/-- The per-day cap after the `p == 4` stage. -/
theorem maxLecturesBlockStage4_fst (pf : Int × List (List Nat)) (b : Int) :
    (maxLecturesBlockStage4 pf b).1 = if pf.1 = 4 ∧ b < 2 then 3 else pf.1 := by
  unfold maxLecturesBlockStage4
  split_ifs <;> simp_all

/-- The `p == 3` stage never changes the per-day cap. -/
theorem maxLecturesBlockStage3_fst (pf : Int × List (List Nat)) (b : Int) :
    (maxLecturesBlockStage3 pf b).1 = pf.1 := by
  unfold maxLecturesBlockStage3
  split_ifs <;> rfl

/-- The `p == 2` stage never changes the per-day cap. -/
theorem maxLecturesBlockStage2_fst (pf : Int × List (List Nat)) (b : Int) :
    (maxLecturesBlockStage2 pf b).1 = pf.1 := by
  unfold maxLecturesBlockStage2
  split_ifs <;> rfl

/-- The parameter part of the block phase agrees with the claim's
stepwise description. -/
theorem maxLecturesBlockPhase_params (p0 b0 : Int) :
    ((maxLecturesBlockPhase p0 b0).1, (maxLecturesBlockPhase p0 b0).2.1) =
      claimedReduceParams p0 b0 := by
  simp only [maxLecturesBlockPhase, claimedReduceParams, maxLecturesBlockStage2_fst,
    maxLecturesBlockStage3_fst, maxLecturesBlockStage4_fst, maxLecturesBlockStage5_fst,
    Bool.and_eq_true, beq_iff_eq, bne_iff_ne]

/-- C4: `addMaxLecturesAsBlockTeacherConstraints` rewrites each teacher's
fields in place exactly as the claim describes (clamp the block cap to
the per-day cap, then reduce the per-day cap stepwise 6→5 when the block
cap is not 6, 5→4 when it is below 3, 4→3 when it is below 2), and the
subsequently called `addMaxLecturesPerDayTeacherConstraints` posts, for
every teacher and every weekday, a cap whose bound is the reduced
`max_lectures_per_day` value. -/
theorem maxLecturesBlock_inPlace_reduction_feeds_perDay_cap :
    (∀ t : Teacher, reduceTeacher t =
      { t with
        max_lectures_per_day := (claimedReduceParams t.max_lectures_per_day t.max_lectures_as_block).1,
        max_lectures_as_block := (claimedReduceParams t.max_lectures_per_day t.max_lectures_as_block).2 }) ∧
    (∀ orm : Orm, ∀ t ∈ orm.teachers, ∀ d, d < WEEKDAYS →
      (⟨(reduceTeacher t).id, d,
        lecturesForTeacher (addMaxLecturesAsBlockTeacherConstraints orm).1 (reduceTeacher t),
        (claimedReduceParams t.max_lectures_per_day t.max_lectures_as_block).1⟩ : PerDayLectureCap)
        ∈ (lecturePipeline orm).2) := by
  have hparams := maxLecturesBlockPhase_params
  constructor
  · intro t
    have h := hparams t.max_lectures_per_day t.max_lectures_as_block
    rw [Prod.mk.injEq] at h
    rw [reduceTeacher, h.1, h.2]
  · intro orm t ht d hd
    have h := hparams t.max_lectures_per_day t.max_lectures_as_block
    rw [Prod.mk.injEq] at h
    rw [lecturePipeline]
    simp only [addMaxLecturesPerDayTeacherConstraints, List.mem_flatMap, List.mem_map]
    refine ⟨reduceTeacher t, ?_, ?_⟩
    · simp only [addMaxLecturesAsBlockTeacherConstraints]
      exact List.mem_map_of_mem reduceTeacher ht
    · exact ⟨d, List.mem_range.mpr hd, by rw [← h.1]; rfl⟩

/-- Witness for C4: a teacher with `max_lectures_per_day = 6` and
`max_lectures_as_block = 2` is rewritten to `(4, 2)`, and the per-day cap
posted for Monday carries the reduced bound 4. -/
theorem maxLecturesBlock_reduction_witness :
    reduceTeacher { id := 7, max_lectures_per_day := 6, max_lectures_as_block := 2 } =
      { id := 7, max_lectures_per_day := 4, max_lectures_as_block := 2 } ∧
    (⟨7, 0,
      lecturesForTeacher
        (addMaxLecturesAsBlockTeacherConstraints
          { teachers := [{ id := 7, max_lectures_per_day := 6, max_lectures_as_block := 2 }] }).1
        (reduceTeacher { id := 7, max_lectures_per_day := 6, max_lectures_as_block := 2 }),
      (4 : Int)⟩ : PerDayLectureCap)
      ∈ (lecturePipeline
          { teachers := [{ id := 7, max_lectures_per_day := 6, max_lectures_as_block := 2 }] }).2 := by
  constructor
  · rw [maxLecturesBlock_inPlace_reduction_feeds_perDay_cap.1
      { id := 7, max_lectures_per_day := 6, max_lectures_as_block := 2 }]
    rfl
  · exact maxLecturesBlock_inPlace_reduction_feeds_perDay_cap.2
      { teachers := [{ id := 7, max_lectures_per_day := 6, max_lectures_as_block := 2 }] }
      { id := 7, max_lectures_per_day := 6, max_lectures_as_block := 2 }
      (by decide) 0 (by decide)

/-- The `p == 5` stage at block cap 3. -/
theorem maxLecturesBlockStage5_at3 (p : Int) :
    maxLecturesBlockStage5 p 3 = if p = 5 then (5, max5_maxblock_3) else (p, []) := by
  unfold maxLecturesBlockStage5
  split_ifs <;> simp_all

/-- The `p == 4` stage at block cap 3. -/
theorem maxLecturesBlockStage4_at3 (q : Int) (f : List (List Nat)) :
    maxLecturesBlockStage4 (q, f) 3 = if q = 4 then (4, max4_maxblock_3) else (q, f) := by
  unfold maxLecturesBlockStage4
  split_ifs <;> simp_all

/-- The `p == 3` stage changes nothing at block cap 3. -/
theorem maxLecturesBlockStage3_at3 (q : Int) (f : List (List Nat)) :
    maxLecturesBlockStage3 (q, f) 3 = (q, f) := by
  unfold maxLecturesBlockStage3
  split_ifs <;> simp_all

/-- The `p == 2` stage changes nothing at block cap 3. -/
theorem maxLecturesBlockStage2_at3 (q : Int) (f : List (List Nat)) :
    maxLecturesBlockStage2 (q, f) 3 = (q, f) := by
  unfold maxLecturesBlockStage2
  split_ifs <;> simp_all

/-- Through the four stages at block cap 3, a final per-day cap of 4
selects the table `max4_maxblock_3`. -/
theorem maxLecturesBlockStages_forbidden_4_3 (p1 b : Int) (hb : b = 3)
    (h1 : (maxLecturesBlockStage2 (maxLecturesBlockStage3
      (maxLecturesBlockStage4 (maxLecturesBlockStage5 p1 b) b) b) b).1 = 4) :
    (maxLecturesBlockStage2 (maxLecturesBlockStage3
      (maxLecturesBlockStage4 (maxLecturesBlockStage5 p1 b) b) b) b).2 = max4_maxblock_3 := by
  subst hb
  rw [maxLecturesBlockStage5_at3] at h1 ⊢
  by_cases h5 : p1 = 5
  · rw [if_pos h5, maxLecturesBlockStage4_at3] at h1
    norm_num at h1
    rw [maxLecturesBlockStage3_at3, maxLecturesBlockStage2_at3] at h1
    exact absurd h1 (by norm_num)
  · rw [if_neg h5, maxLecturesBlockStage4_at3] at h1 ⊢
    by_cases h4 : p1 = 4
    · rw [if_pos h4, maxLecturesBlockStage3_at3, maxLecturesBlockStage2_at3]
    · rw [if_neg h4, maxLecturesBlockStage3_at3, maxLecturesBlockStage2_at3] at h1
      exact absurd h1 h4

/-- When the block phase ends with per-day cap 4 and block cap 3, the
selected forbidden table is `max4_maxblock_3`. -/
theorem maxLecturesBlockPhase_forbidden_4_3 (p0 b0 : Int)
    (h1 : (maxLecturesBlockPhase p0 b0).1 = 4)
    (h2 : (maxLecturesBlockPhase p0 b0).2.1 = 3) :
    (maxLecturesBlockPhase p0 b0).2.2 = max4_maxblock_3 :=
  maxLecturesBlockStages_forbidden_4_3
    (if p0 == 6 && (if b0 > p0 then p0 else b0) != 6 then 5 else p0)
    (if b0 > p0 then p0 else b0) h2 h1

/-- The weekday grouping of an entity graph over the default grid. -/
theorem getTimeslotsPerDay_default (orm : Orm) (h : orm.timeslots = defaultTimeslots) :
    orm.getTimeslotsPerDay = defaultDays := by
  unfold Orm.getTimeslotsPerDay defaultDays Orm.getTimeslotsPerDay
  rw [h]

/-- C5: for every teacher whose (possibly pre-reduced) parameters are
`max_lectures_per_day = 4` and `max_lectures_as_block = 3`, the model
builder posts, for each of the five weekdays, one forbidden-assignments
constraint over that day's six teacher-lecture-at-slot booleans whose
forbidden tuple set is exactly
`{[1,1,1,1,0,0], [0,1,1,1,1,0], [0,0,1,1,1,1]}`; together with the posted
per-day cap of 4 this excludes every day pattern containing four
consecutive lecture-occupied slots (the final conjunct: every such
pattern within the cap is one of the three tuples). -/
theorem blockConstraints_for_reduced_4_3 (t : Teacher) (orm : Orm)
    (h1 : (reduceTeacher t).max_lectures_per_day = 4)
    (h2 : (reduceTeacher t).max_lectures_as_block = 3)
    (horm : orm.timeslots = defaultTimeslots) :
    forbiddenAssignmentsFor t = [[1,1,1,1,0,0], [0,1,1,1,1,0], [0,0,1,1,1,1]] ∧
    blockConstraintsForTeacher orm t =
      defaultDays.map (fun day => ⟨t.id, day, max4_maxblock_3⟩) ∧
    defaultDays.length = WEEKDAYS ∧
    (∀ day ∈ defaultDays, day.length = TIMESLOTS_PER_DAY) ∧
    (∀ b1 b2 b3 b4 b5 b6 : Bool,
      hasRunOfFour [b1, b2, b3, b4, b5, b6] = true →
      countOnes [b1, b2, b3, b4, b5, b6] ≤ 4 →
      boolsToBits [b1, b2, b3, b4, b5, b6] ∈ max4_maxblock_3) := by
  have hf : forbiddenAssignmentsFor t = max4_maxblock_3 :=
    maxLecturesBlockPhase_forbidden_4_3 t.max_lectures_per_day t.max_lectures_as_block h1 h2
  refine ⟨hf, ?_, by decide, by decide, by decide⟩
  unfold blockConstraintsForTeacher
  rw [hf, getTimeslotsPerDay_default orm horm]
  rfl

/-- Witness for C5 at a concrete `(4, 3)` teacher over the default grid. -/
theorem blockConstraints_for_reduced_4_3_witness :
    forbiddenAssignmentsFor ex5Teacher = [[1,1,1,1,0,0], [0,1,1,1,1,0], [0,0,1,1,1,1]] ∧
    blockConstraintsForTeacher {} ex5Teacher =
      defaultDays.map (fun day => ⟨ex5Teacher.id, day, max4_maxblock_3⟩) ∧
    defaultDays.length = WEEKDAYS ∧
    (∀ day ∈ defaultDays, day.length = TIMESLOTS_PER_DAY) ∧
    (∀ b1 b2 b3 b4 b5 b6 : Bool,
      hasRunOfFour [b1, b2, b3, b4, b5, b6] = true →
      countOnes [b1, b2, b3, b4, b5, b6] ≤ 4 →
      boolsToBits [b1, b2, b3, b4, b5, b6] ∈ max4_maxblock_3) :=
  blockConstraints_for_reduced_4_3 ex5Teacher {} (by decide) (by decide) rfl

/-- The size fold never drops below its accumulator. -/
theorem foldl_max_acc_le (g : List Lesson) :
    ∀ a : Nat, a ≤ g.foldl (fun m l => max m l.timeslot_size) a := by
  induction g with
  | nil => intro a; exact Nat.le_refl a
  | cons x xs ih =>
    intro a
    exact Nat.le_trans (Nat.le_max_left a x.timeslot_size) (ih (max a x.timeslot_size))

/-- Every member's size is bounded by the size fold. -/
theorem le_foldl_max (g : List Lesson) (l : Lesson) (hl : l ∈ g) :
    ∀ a : Nat, l.timeslot_size ≤ g.foldl (fun m x => max m x.timeslot_size) a := by
  induction g with
  | nil => cases hl
  | cons x xs ih =>
    intro a
    rcases List.mem_cons.mp hl with h | h
    · subst h
      exact Nat.le_trans (Nat.le_max_right a l.timeslot_size)
        (foldl_max_acc_le xs (max a l.timeslot_size))
    · exact ih h (max a x.timeslot_size)

/-- Every member's size is bounded by the group's maximal size. -/
theorem le_groupMaxSize {g : List Lesson} {l : Lesson} (hl : l ∈ g) :
    l.timeslot_size ≤ groupMaxSize g :=
  le_foldl_max g l hl 0

/-- Anything below the size fold is below the accumulator or below some
member's size. -/
theorem lt_foldl_max (g : List Lesson) (i : Nat) :
    ∀ a : Nat, i < g.foldl (fun m x => max m x.timeslot_size) a →
      i < a ∨ ∃ l ∈ g, i < l.timeslot_size := by
  induction g with
  | nil => intro a h; exact Or.inl h
  | cons x xs ih =>
    intro a h
    rcases ih (max a x.timeslot_size) h with h' | ⟨l, hl, hi⟩
    · rcases lt_max_iff.mp h' with h'' | h''
      · exact Or.inl h''
      · exact Or.inr ⟨x, List.mem_cons_self x xs, h''⟩
    · exact Or.inr ⟨l, List.mem_cons_of_mem x hl, hi⟩

/-- Below the group's maximal size there is a member of larger size. -/
theorem lt_groupMaxSize_exists {g : List Lesson} {i : Nat} (h : i < groupMaxSize g) :
    ∃ l ∈ g, i < l.timeslot_size := by
  rcases lt_foldl_max g i 0 h with h' | h'
  · omega
  · exact h'

/-- Membership in `intersectAll` over a nonempty argument list. -/
theorem mem_intersectAll (ls : List (List Timeslot)) (x : Timeslot) (h : ls ≠ []) :
    x ∈ intersectAll ls ↔ ∀ s ∈ ls, x ∈ s := by
  match ls, h with
  | l :: rest, _ =>
    simp only [intersectAll, List.mem_filter, List.all_eq_true, decide_eq_true_eq]
    constructor
    · rintro ⟨h1, h2⟩ s hs
      rcases List.mem_cons.mp hs with rfl | hs
      · exact h1
      · exact h2 s hs
    · intro hall
      exact ⟨hall l (List.mem_cons_self l rest),
        fun s hs => hall s (List.mem_cons_of_mem l hs)⟩

/-- Length of the below-`s` filter of `range m`. -/
theorem length_filter_range_lt (s : Nat) :
    ∀ m : Nat, ((List.range m).filter fun i => decide (i < s)).length = min s m := by
  intro m
  induction m with
  | zero => simp
  | succ m ih =>
    rw [List.range_succ, List.filter_append, List.length_append, ih]
    by_cases h : m < s
    · simp [List.filter, h]
      omega
    · simp [List.filter, h]
      omega

/-- `getD` on a mapped range. -/
theorem getD_map_range {α : Type} (f : Nat → α) (hd : α) (m i : Nat) (h : i < m) :
    ((List.range m).map f).getD i hd = f i := by
  rw [List.getD_eq_getElem?_getD, List.getElem?_map, List.getElem?_range h]
  rfl

/-- C6: for every same-time group, the variable factory creates per
lesson exactly `timeslot_size` start-slot variables; the i-th shared
variable's domain is exactly the set of ids of timeslots that lie in the
filtered available timeslots of every group member of size above `i` and
whose number in the day is at most
`TIMESLOTS_PER_DAY − max_size + i + 1` (with `max_size` the group's
maximal size); and each variable is constrained to be its predecessor
plus one. -/
theorem createLessonTimeVars_spec (group : List Lesson) :
    (timeVarDomains group).length = groupMaxSize group ∧
    (∀ l ∈ group, (timeVarsOfLesson group l).length = l.timeslot_size) ∧
    (∀ i, i < groupMaxSize group → ∀ tid,
      tid ∈ (timeVarDomains group).getD i [] ↔
        ∃ ts : Timeslot,
          (∀ l ∈ group, i < l.timeslot_size → ts ∈ l.availableTimeslotsFiltered) ∧
          ts.number ≤ TIMESLOTS_PER_DAY - groupMaxSize group + i + 1 ∧ ts.id = tid) ∧
    (∀ i, i + 1 < groupMaxSize group → (i, i + 1) ∈ consecutiveTimeVarConstraints group) := by
  refine ⟨?_, ?_, ?_, ?_⟩
  · simp [timeVarDomains]
  · intro l hl
    unfold timeVarsOfLesson
    rw [length_filter_range_lt]
    exact Nat.min_eq_left (le_groupMaxSize hl)
  · intro i hi tid
    unfold timeVarDomains
    rw [getD_map_range _ _ _ _ hi]
    obtain ⟨l₀, hl₀, hs₀⟩ := lt_groupMaxSize_exists hi
    have hlws : l₀ ∈ group.filter fun l => decide (i < l.timeslot_size) :=
      List.mem_filter.mpr ⟨hl₀, decide_eq_true hs₀⟩
    have hne : ((group.filter fun l => decide (i < l.timeslot_size)).map
        fun l => l.availableTimeslotsFiltered) ≠ [] := by
      simp only [ne_eq, List.map_eq_nil_iff]
      exact List.ne_nil_of_mem hlws
    constructor
    · intro hmem
      obtain ⟨ts, hts, rfl⟩ := List.mem_map.mp hmem
      obtain ⟨htsi, htsn⟩ := List.mem_filter.mp hts
      refine ⟨ts, ?_, by simpa using htsn, rfl⟩
      intro l hl hsize
      have := (mem_intersectAll _ ts hne).mp htsi
      exact this l.availableTimeslotsFiltered
        (List.mem_map_of_mem _ (List.mem_filter.mpr ⟨hl, decide_eq_true hsize⟩))
    · rintro ⟨ts, hall, hnum, rfl⟩
      refine List.mem_map_of_mem _ (List.mem_filter.mpr ⟨?_, by simpa using hnum⟩)
      refine (mem_intersectAll _ ts hne).mpr ?_
      intro s hs
      obtain ⟨l, hl, rfl⟩ := List.mem_map.mp hs
      obtain ⟨hlg, hld⟩ := List.mem_filter.mp hl
      exact hall l hlg (of_decide_eq_true hld)
  · intro i hi
    unfold consecutiveTimeVarConstraints
    exact List.mem_map_of_mem _ (List.mem_range.mpr (by omega))

/-- Witness for C6 at a concrete two-lesson same-time group. -/
theorem createLessonTimeVars_spec_witness :
    (timeVarsOfLesson ex6Group ex6LessonA).length = 2 ∧
    (3 : Nat) ∈ (timeVarDomains ex6Group).getD 0 [] ∧
    ((0, 1) : Nat × Nat) ∈ consecutiveTimeVarConstraints ex6Group :=
  ⟨(createLessonTimeVars_spec ex6Group).2.1 ex6LessonA (by decide),
   ((createLessonTimeVars_spec ex6Group).2.2.1 0 (by decide) 3).mpr
     ⟨⟨3, .MO, 3⟩, by decide, by decide, rfl⟩,
   (createLessonTimeVars_spec ex6Group).2.2.2 0 (by decide)⟩

/-- Looking a key up after prepending one binding. -/
theorem lookupVar_cons (a v k : Nat) (m : List (Nat × Nat)) :
    lookupVar ((a, v) :: m) k = if k = a then some v else lookupVar m k := by
  unfold lookupVar
  by_cases h : k = a
  · subst h
    rw [List.find?_cons_of_pos _ (by simp)]
    simp
  · rw [List.find?_cons_of_neg _ (by simpa using fun he => h he.symm)]
    simp [h]

/-- Looking a key up after the overwriting bulk insert. -/
theorem lookupVar_insertAllVars (keys : List Nat) (v : Nat) :
    ∀ (m : List (Nat × Nat)) (k : Nat),
      lookupVar (insertAllVars m keys v) k =
        if k ∈ keys then some v else lookupVar m k := by
  induction keys with
  | nil => intro m k; simp [insertAllVars]
  | cons k1 ks ih =>
    intro m k
    have hstep : insertAllVars m (k1 :: ks) v = insertAllVars ((k1, v) :: m) ks v := rfl
    rw [hstep, ih, lookupVar_cons]
    by_cases h : k ∈ ks
    · simp [h, List.mem_cons]
    · by_cases h1 : k = k1
      · simp [h, h1, List.mem_cons]
      · simp [h, h1, List.mem_cons]

/-- The allocation fold of `createLessonTimeHelperVariables` preserves
the group-sharing property of the bundle map: under id-injectivity,
symmetry and transitive closure of the same-time relation, lessons of one
group always map to the same bundle. -/
theorem assignHelperVars_fold_sharing (lessons : List Lesson)
    (hinj : ∀ a ∈ lessons, ∀ b ∈ lessons, a.id = b.id → a = b)
    (hsym : ∀ a ∈ lessons, ∀ b ∈ lessons, b.id ∈ a.sameTimeIds → a.id ∈ b.sameTimeIds)
    (hclo : ∀ a ∈ lessons, ∀ b ∈ lessons, b.id ∈ a.sameTimeIds →
      ∀ c ∈ b.sameTimeIds, c ∈ a.sameTimeIds ∨ c = a.id) :
    ∀ (todo : List Lesson), (∀ x ∈ todo, x ∈ lessons) →
      ∀ (m : List (Nat × Nat)) (cnt : Nat),
        (∀ a ∈ lessons, ∀ b ∈ lessons, b.id ∈ a.sameTimeIds →
          lookupVar m a.id = lookupVar m b.id) →
        ∀ a ∈ lessons, ∀ b ∈ lessons, b.id ∈ a.sameTimeIds →
          lookupVar (todo.foldl helperVarStep (m, cnt)).1 a.id =
            lookupVar (todo.foldl helperVarStep (m, cnt)).1 b.id := by
  intro todo
  induction todo with
  | nil => intro _ m cnt hm; exact hm
  | cons L rest ih =>
    intro htodo m cnt hm
    rw [List.foldl_cons]
    have hLmem : L ∈ lessons := htodo L (List.mem_cons_self L rest)
    cases hL : lookupVar m L.id with
    | some v =>
      have hstep : helperVarStep (m, cnt) L = (m, cnt) := by
        unfold helperVarStep
        rw [hL]
      rw [hstep]
      exact ih (fun x hx => htodo x (List.mem_cons_of_mem L hx)) m cnt hm
    | none =>
      have hstep : helperVarStep (m, cnt) L =
          (insertAllVars ((L.id, cnt) :: m) L.sameTimeIds cnt, cnt + 1) := by
        unfold helperVarStep
        rw [hL]
      rw [hstep]
      apply ih (fun x hx => htodo x (List.mem_cons_of_mem L hx))
      have hm' : ∀ k, lookupVar (insertAllVars ((L.id, cnt) :: m) L.sameTimeIds cnt) k =
          if k ∈ L.sameTimeIds ∨ k = L.id then some cnt else lookupVar m k := by
        intro k
        rw [lookupVar_insertAllVars, lookupVar_cons]
        by_cases h : k ∈ L.sameTimeIds
        · simp [h]
        · by_cases h1 : k = L.id
          · simp [h, h1]
          · simp [h, h1]
      intro a ha b hb hab
      by_cases hga : a.id ∈ L.sameTimeIds ∨ a.id = L.id
      · have hgb : b.id ∈ L.sameTimeIds ∨ b.id = L.id := by
          rcases hga with hga' | hga'
          · exact hclo L hLmem a ha hga' b.id hab
          · have haL : a = L := hinj a ha L hLmem hga'
            exact Or.inl (haL ▸ hab)
        rw [hm' a.id, hm' b.id, if_pos hga, if_pos hgb]
      · have hgb : ¬(b.id ∈ L.sameTimeIds ∨ b.id = L.id) := by
          intro hgb
          apply hga
          rcases hgb with hgb' | hgb'
          · exact hclo L hLmem b hb hgb' a.id (hsym a ha b hb hab)
          · have hbL : b = L := hinj b hb L hLmem hgb'
            exact Or.inl (hbL ▸ hsym a ha b hb hab)
        rw [hm' a.id, hm' b.id, if_neg hga, if_neg hgb]
        exact hm a ha b hb hab

/-- C7: in every feasible assignment of the built model the helper
variables of a lesson satisfy `weekdayVar ∈ [1..5]`,
`hourNumberVar ∈ [1..TIMESLOTS_PER_DAY]`,
`timeVars[0] = (weekdayVar − 1) · TIMESLOTS_PER_DAY + hourNumberVar`, and
exactly one of the five `weekdayBoolVars` is 1, namely the one whose
day's id range contains `timeVars[0]`; and lessons of one same-time group
share the helper variables by identity (they are mapped to the same
bundle by the allocation). -/
theorem createLessonTimeHelperVariables_spec :
    (∀ (w h t0 : Int) (d : List Bool),
      lessonTimeHelperConstraintsHold defaultDays w h t0 d →
      (1 ≤ w ∧ w ≤ 5) ∧ (1 ≤ h ∧ h ≤ 6) ∧ t0 = (w - 1) * 6 + h ∧
      (∀ i, i < 5 → (d.getD i false = true ↔
        (6 * (i : Int) + 1 ≤ t0 ∧ t0 ≤ 6 * (i : Int) + 6)))) ∧
    (∀ (lessons : List Lesson),
      (∀ a ∈ lessons, ∀ b ∈ lessons, a.id = b.id → a = b) →
      (∀ a ∈ lessons, ∀ b ∈ lessons, b.id ∈ a.sameTimeIds → a.id ∈ b.sameTimeIds) →
      (∀ a ∈ lessons, ∀ b ∈ lessons, b.id ∈ a.sameTimeIds →
        ∀ c ∈ b.sameTimeIds, c ∈ a.sameTimeIds ∨ c = a.id) →
      ∀ a ∈ lessons, ∀ b ∈ lessons, b.id ∈ a.sameTimeIds →
        lookupVar (assignHelperVars lessons) a.id =
          lookupVar (assignHelperVars lessons) b.id) := by
  constructor
  · intro w h t0 d hc
    obtain ⟨⟨hw1, hw2⟩, ⟨hh1, hh2⟩, ht0, hlen, hbnd, hcnt⟩ := hc
    have hdays_len : defaultDays.length = 5 := by decide
    have hlo : ∀ i, i < 5 →
        ((((defaultDays.getD i []).headD default).id : Int) = 6 * i + 1 ∧
         (((defaultDays.getD i []).getLastD default).id : Int) = 6 * i + 6) := by decide
    have hw2' : w ≤ 5 := by exact_mod_cast hw2
    have hh2' : h ≤ 6 := by exact_mod_cast hh2
    have ht0' : t0 = (w - 1) * 6 + h := by exact_mod_cast ht0
    refine ⟨⟨hw1, hw2'⟩, ⟨hh1, hh2'⟩, ht0', ?_⟩
    intro i hi
    constructor
    · intro hd
      have hb := hbnd i (by omega) hd
      rcases hlo i hi with ⟨hl, hr⟩
      rw [hl, hr] at hb
      exact hb
    · intro hrange
      by_contra hdneg
      have hpos : 0 < d.countP (fun b => b) := by rw [hcnt]; omega
      obtain ⟨x, hxmem, hx⟩ := List.countP_pos_iff.mp hpos
      obtain ⟨j, hj, hxj⟩ := List.getElem_of_mem hxmem
      have hdj : d.getD j false = true := by
        rw [List.getD_eq_getElem?_getD, List.getElem?_eq_getElem hj]
        simp only [Option.getD_some]
        rw [hxj]
        simpa using hx
      have hjlt : j < 5 := by
        rw [hlen, hdays_len] at hj
        exact hj
      have hbj := hbnd j (by omega) hdj
      rcases hlo j hjlt with ⟨hlj, hrj⟩
      rw [hlj, hrj] at hbj
      have hij : i = j := by omega
      rw [hij] at hdneg
      exact hdneg hdj
  · intro lessons hinj hsym hclo a ha b hb hab
    exact assignHelperVars_fold_sharing lessons hinj hsym hclo lessons (fun x hx => hx) [] 0
      (fun _ _ _ _ _ => rfl) a ha b hb hab

/-- Witness for C7 at a concrete assignment (Monday, second hour) and a
concrete two-lesson same-time group. -/
theorem createLessonTimeHelperVariables_spec_witness :
    ((1 ≤ (1 : Int) ∧ (1 : Int) ≤ 5) ∧ (1 ≤ (2 : Int) ∧ (2 : Int) ≤ 6) ∧
      (2 : Int) = ((1 : Int) - 1) * 6 + 2 ∧
      (∀ i, i < 5 → (([true, false, false, false, false].getD i false = true ↔
        (6 * (i : Int) + 1 ≤ 2 ∧ (2 : Int) ≤ 6 * (i : Int) + 6))))) ∧
    lookupVar (assignHelperVars [ex7LessonA, ex7LessonB]) 1 =
      lookupVar (assignHelperVars [ex7LessonA, ex7LessonB]) 2 :=
  ⟨createLessonTimeHelperVariables_spec.1 1 2 2 [true, false, false, false, false]
     (by unfold lessonTimeHelperConstraintsHold; decide),
   createLessonTimeHelperVariables_spec.2 [ex7LessonA, ex7LessonB] (by decide) (by decide)
     (by decide) ex7LessonA (by decide) ex7LessonB (by decide) (by decide)⟩

/-- C8: for every teacher with both study days set and at least one
lesson, `addTeacherStudyDayConstraints` creates `S2` as the very same
variable as `S1` exactly when the two chosen weekdays coincide; under
`S1` every lesson weekday differs from `id(study_day_1)`, under `S2`
(when the days differ) from `id(study_day_2)`, and `S1 ∨ S2` is
required — hence every feasible assignment leaves at least one chosen
day without any of the teacher's lessons. -/
theorem addTeacherStudyDayConstraints_spec (d1 d2 : Weekday) (ws : List Int) (base : Nat)
    (v : Nat → Bool) :
    ((studyDayVarIds d1 d2 base).2 = (studyDayVarIds d1 d2 base).1 ↔ d1 = d2) ∧
    (teacherStudyDayConstraintsHold d1 d2 ws base v →
      ∃ dd, (dd = d1 ∨ dd = d2) ∧ ∀ w ∈ ws, (getWeekdayID dd : Int) ≠ w) := by
  have hinj : ∀ x y : Weekday, getWeekdayID x = getWeekdayID y → x = y := by
    intro x y
    cases x <;> cases y <;> simp [getWeekdayID]
  constructor
  · unfold studyDayVarIds
    by_cases h : getWeekdayID d1 = getWeekdayID d2
    · simp [h, hinj d1 d2 h]
    · simp only [bne_iff_ne, ne_eq, h, not_false_eq_true, if_pos]
      constructor
      · intro habs
        omega
      · intro habs
        exact absurd (congrArg getWeekdayID habs) h
  · intro hc
    obtain ⟨h1, h2, h3⟩ := hc
    by_cases hv1 : v (studyDayVarIds d1 d2 base).1 = true
    · exact ⟨d1, Or.inl rfl, h1 hv1⟩
    · have hv2 : v (studyDayVarIds d1 d2 base).2 = true := h3.resolve_left hv1
      by_cases hd : getWeekdayID d1 = getWeekdayID d2
      · have hs : (studyDayVarIds d1 d2 base).2 = (studyDayVarIds d1 d2 base).1 := by
          unfold studyDayVarIds
          simp [hd]
        rw [hs] at hv2
        exact absurd hv2 hv1
      · exact ⟨d2, Or.inr rfl, h2 hd hv2⟩

/-- Witness for C8 with study days MO and TU, one lesson on Wednesday,
and the valuation making `S2` true. -/
theorem addTeacherStudyDayConstraints_spec_witness :
    ((studyDayVarIds .MO .TU 0).2 = (studyDayVarIds .MO .TU 0).1 ↔ Weekday.MO = .TU) ∧
    (∃ dd, (dd = Weekday.MO ∨ dd = Weekday.TU) ∧
      ∀ w ∈ ([3] : List Int), (getWeekdayID dd : Int) ≠ w) :=
  ⟨(addTeacherStudyDayConstraints_spec .MO .TU [3] 0 (fun n => n == 1)).1,
   (addTeacherStudyDayConstraints_spec .MO .TU [3] 0 (fun n => n == 1)).2
     (by unfold teacherStudyDayConstraintsHold studyDayVarIds; decide)⟩

/-- C9: when optimization is enabled, `createObjectiveFunctionSummands`
puts the summands `2 · count_hour(1)`, `3 · count_hour(5)` and
`5 · count_hour(6)` into the objective, and the booleans summed into
`count_hour(n)` are exactly one occupancy boolean per lesson and per
timeslot whose number in the day is `n`. -/
theorem objectiveFunction_hour_penalties (orm : Orm) :
    (ObjVar.hourCount 1, (2 : Int)) ∈ createObjectiveFunctionSummands orm ∧
    (ObjVar.hourCount 5, (3 : Int)) ∈ createObjectiveFunctionSummands orm ∧
    (ObjVar.hourCount 6, (5 : Int)) ∈ createObjectiveFunctionSummands orm ∧
    (∀ n lid tid, (lid, tid) ∈ addCountLessonsAtNthHour orm n ↔
      ∃ l ∈ orm.lessons, ∃ t ∈ orm.timeslots, t.number = n ∧ lid = l.id ∧ tid = t.id) := by
  refine ⟨?_, ?_, ?_, ?_⟩
  · simp [createObjectiveFunctionSummands, SIXTH_HOUR_PENALTY, FIFTH_HOUR_PENALTY,
      FIRST_HOUR_PENALTY]
  · simp [createObjectiveFunctionSummands, SIXTH_HOUR_PENALTY, FIFTH_HOUR_PENALTY,
      FIRST_HOUR_PENALTY]
  · simp [createObjectiveFunctionSummands, SIXTH_HOUR_PENALTY, FIFTH_HOUR_PENALTY,
      FIRST_HOUR_PENALTY]
  · intro n lid tid
    constructor
    · intro hmem
      simp only [addCountLessonsAtNthHour, List.mem_flatMap, List.mem_map, List.mem_filter,
        beq_iff_eq] at hmem
      obtain ⟨l, hl, t, ⟨ht, htn⟩, heq⟩ := hmem
      cases heq
      exact ⟨l, hl, t, ht, htn, rfl, rfl⟩
    · rintro ⟨l, hl, t, ht, htn, rfl, rfl⟩
      simp only [addCountLessonsAtNthHour, List.mem_flatMap, List.mem_map, List.mem_filter,
        beq_iff_eq]
      exact ⟨l, hl, t, ⟨ht, htn⟩, rfl⟩

end TimeTabling
